import Mathlib

/-!
Shallow embedding of the validation / reference-guard / form-controller layer
of the express-locallibrary catalog application.

Modelling conventions, kept uniform through the file:

* MongoDB collections are Lean lists; a `Store` holds the four collections.
  `findById` is `List.find?` on the id, `find {field: v}` is `List.filter`,
  `findByIdAndRemove` is `List.eraseP` (the `_id` index makes ids unique, so
  the first match is the only match), `findByIdAndUpdate` replaces the fields
  of the matching record while keeping its id, and returns the old document
  (mongoose default `new: false`), and `save` appends.  Fresh ObjectIds that
  mongoose would generate are passed as explicit `freshId` arguments.
* express-validator chains are embedded sanitizer-by-sanitizer in source
  order: `trim` is `String.trim`, `escape` is the validator.js character map,
  `isLength {min: 1}` fails exactly on the empty trimmed string,
  `isAlphanumeric` is the en-US ASCII check applied to the escaped value (its
  position in the chain), `optional({checkFalsy}) .isISO8601 .toDate` keeps
  the ISO string and turns absent or empty input into `none` (mongoose also
  casts an empty string to null).  Each failing validator contributes one
  error, in chain order; there is no `bail`, so a blank author name fails
  both `isLength` and `isAlphanumeric`.
* A handler is a function from the store and the request data to the new
  store and the list of response calls (`Resp`) the handler code performs,
  in order.  Express commits the first response call; the delete-GET
  handlers lack a `return` after their missing-record redirect, so they go
  on to call `render` as well, and the action list shows both calls.
  `Resp.nextErr` is `next(err)` (an optional HTTP status and the message);
  `Resp.fault` is an exception thrown outside any try/catch (the
  update-POST handlers of Author and Book have no try around the final
  lookup, so a null there escapes unhandled).
-/

/-- validator.js `trim` (both ends, whitespace).  Spelled out over the
character list so that the kernel can evaluate it on literals, which the
built-in `String.trim` does not allow. -/
def jsTrim (s : String) : String :=
  ⟨((s.data.dropWhile Char.isWhitespace).reverse.dropWhile
      Char.isWhitespace).reverse⟩

/-- Lexicographic comparison of code-point lists, the order MongoDB uses
for an ascending sort on a string field. -/
def leNatL : List Nat → List Nat → Bool
  | [], _ => true
  | _ :: _, [] => false
  | a :: as, b :: bs => if a = b then leNatL as bs else decide (a < b)

/-- Lexicographic string comparison by code point (see `leNatL`). -/
def strLe (a b : String) : Bool :=
  leNatL (a.data.map Char.toNat) (b.data.map Char.toNat)

/-- validator.js `escape` for one character: HTML-escape ampersand, quotes,
angle brackets, slash, backslash and backtick; every other character is
kept. -/
def escapeChar (c : Char) : List Char :=
  if c = '&' then "&amp;".data
  else if c = '"' then "&quot;".data
  else if c.toNat = 39 then "&#x27;".data
  else if c = '<' then "&lt;".data
  else if c = '>' then "&gt;".data
  else if c = '/' then "&#x2F;".data
  else if c.toNat = 92 then "&#x5C;".data
  else if c.toNat = 96 then "&#96;".data
  else [c]

/-- validator.js `escape` over a whole string. -/
def escapeStr (s : String) : String :=
  ⟨(s.data.map escapeChar).flatten⟩

/-- The `trim → escape` sanitizer pipeline every required string field of
this application runs (the value stored back into `req.body`). -/
def sanitizeStr (s : String) : String :=
  escapeStr (jsTrim s)

/-- validator.js `isAlphanumeric` with the default en-US locale: one or more
ASCII letters or digits. -/
def isAlphanumericStr (s : String) : Bool :=
  !s.data.isEmpty && s.data.all Char.isAlphanum

/-- Modelled external validator: validator.js `isISO8601`, restricted to the
calendar-date shape `YYYY-MM-DD` that the date fields of this application
exercise. -/
def isISO8601date (s : String) : Bool :=
  match s.data with
  | [y1, y2, y3, y4, h1, m1, m2, h2, d1, d2] =>
    y1.isDigit && y2.isDigit && y3.isDigit && y4.isDigit &&
    h1 = '-' && h2 = '-' && m1.isDigit && m2.isDigit &&
    d1.isDigit && d2.isDigit &&
    decide (1 ≤ (m1.toNat - 48) * 10 + (m2.toNat - 48)) &&
    decide ((m1.toNat - 48) * 10 + (m2.toNat - 48) ≤ 12) &&
    decide (1 ≤ (d1.toNat - 48) * 10 + (d2.toNat - 48)) &&
    decide ((d1.toNat - 48) * 10 + (d2.toNat - 48) ≤ 31)
  | _ => false

/-- One express-validator error: the field (`param`) and its message. -/
structure FieldError where
  param : String
  msg : String
deriving Repr, DecidableEq

/-- Errors of a `trim → isLength {min 1} → escape` chain: exactly one error
when the trimmed value is empty, none otherwise. -/
def requiredErrors (field msg : String) (raw : String) : List FieldError :=
  if jsTrim raw = "" then [⟨field, msg⟩] else []

/-- Errors of an author-name chain
`trim → isLength {min 1} → escape → isAlphanumeric`: the length check sees
the trimmed value, the alphanumeric check sees the escaped value, and each
failing validator contributes its own error. -/
def authorNameErrors (field msgRequired msgAlpha : String) (raw : String) :
    List FieldError :=
  (if jsTrim raw = "" then [⟨field, msgRequired⟩] else []) ++
  (if isAlphanumericStr (sanitizeStr raw) then [] else [⟨field, msgAlpha⟩])

/-- Errors of an `optional({checkFalsy: true}) → isISO8601 → toDate` chain:
absent or empty input is skipped, anything else must be an ISO date. -/
def dateErrors (field msg : String) (raw : Option String) : List FieldError :=
  match raw with
  | none => []
  | some s => if s = "" then [] else if isISO8601date s then [] else [⟨field, msg⟩]

/-- The date value carried into the entity draft: absent and empty input
become `none` (checkFalsy skip plus the mongoose empty-string-to-null cast);
a present value keeps its ISO string. -/
def normDate : Option String → Option String
  | none => none
  | some s => if s = "" then none else some s

/-- MongoDB ObjectIds, as opaque strings. -/
abbrev ObjId := String

structure Genre where
  id : ObjId
  name : String
deriving Repr, DecidableEq

structure Author where
  id : ObjId
  first_name : String
  family_name : String
  date_of_birth : Option String
  date_of_death : Option String
deriving Repr, DecidableEq

structure Book where
  id : ObjId
  title : String
  author : ObjId
  summary : String
  isbn : String
  genre : List ObjId
deriving Repr, DecidableEq

structure BookInstance where
  id : ObjId
  book : ObjId
  imprint : String
  status : String
  due_back : Option String
deriving Repr, DecidableEq

/-- The document database: one list per collection. -/
structure Store where
  genres : List Genre
  authors : List Author
  books : List Book
  bookinstances : List BookInstance
deriving Repr, DecidableEq

/-- The `_id` unique index MongoDB maintains on every collection. -/
def Store.wf (s : Store) : Prop :=
  (s.genres.map Genre.id).Nodup ∧ (s.authors.map Author.id).Nodup ∧
  (s.books.map Book.id).Nodup ∧ (s.bookinstances.map BookInstance.id).Nodup

instance (s : Store) : Decidable s.wf := by
  unfold Store.wf; infer_instance

def findGenreById (s : Store) (i : ObjId) : Option Genre :=
  s.genres.find? (fun g => g.id == i)

def findAuthorById (s : Store) (i : ObjId) : Option Author :=
  s.authors.find? (fun a => a.id == i)

def findBookById (s : Store) (i : ObjId) : Option Book :=
  s.books.find? (fun b => b.id == i)

def findBookInstanceById (s : Store) (i : ObjId) : Option BookInstance :=
  s.bookinstances.find? (fun b => b.id == i)

/-- `Book.find({author: id})`. -/
def findBooksByAuthor (s : Store) (i : ObjId) : List Book :=
  s.books.filter (fun b => b.author == i)

/-- `Book.find({genre: id})`: an equality filter on an array field matches by
membership. -/
def findBooksByGenre (s : Store) (i : ObjId) : List Book :=
  s.books.filter (fun b => b.genre.contains i)

/-- `BookInstance.find({book: id})`. -/
def findBookInstancesByBook (s : Store) (i : ObjId) : List BookInstance :=
  s.bookinstances.filter (fun b => b.book == i)

/-- `Genre.findOne({name: n})`: the first match in collection order. -/
def findGenreByName (s : Store) (n : String) : Option Genre :=
  s.genres.find? (fun g => g.name == n)

def saveGenre (s : Store) (g : Genre) : Store :=
  { s with genres := s.genres ++ [g] }

def saveAuthor (s : Store) (a : Author) : Store :=
  { s with authors := s.authors ++ [a] }

def saveBook (s : Store) (b : Book) : Store :=
  { s with books := s.books ++ [b] }

def saveBookInstance (s : Store) (b : BookInstance) : Store :=
  { s with bookinstances := s.bookinstances ++ [b] }

def removeGenreById (s : Store) (i : ObjId) : Store :=
  { s with genres := s.genres.eraseP (fun g => g.id == i) }

def removeAuthorById (s : Store) (i : ObjId) : Store :=
  { s with authors := s.authors.eraseP (fun a => a.id == i) }

def removeBookById (s : Store) (i : ObjId) : Store :=
  { s with books := s.books.eraseP (fun b => b.id == i) }

def removeBookInstanceById (s : Store) (i : ObjId) : Store :=
  { s with bookinstances := s.bookinstances.eraseP (fun b => b.id == i) }

/-- `Genre.findByIdAndUpdate(i, g, {})`: replace the fields of the matching
record (its own id is kept) and return the old document. -/
def updateGenreById (s : Store) (i : ObjId) (g : Genre) :
    Option Genre × Store :=
  match s.genres.find? (fun x => x.id == i) with
  | none => (none, s)
  | some old =>
    (some old,
     { s with genres :=
         s.genres.map (fun x => if x.id == i then { g with id := x.id } else x) })

def updateAuthorById (s : Store) (i : ObjId) (a : Author) :
    Option Author × Store :=
  match s.authors.find? (fun x => x.id == i) with
  | none => (none, s)
  | some old =>
    (some old,
     { s with authors :=
         s.authors.map (fun x => if x.id == i then { a with id := x.id } else x) })

def updateBookById (s : Store) (i : ObjId) (b : Book) :
    Option Book × Store :=
  match s.books.find? (fun x => x.id == i) with
  | none => (none, s)
  | some old =>
    (some old,
     { s with books :=
         s.books.map (fun x => if x.id == i then { b with id := x.id } else x) })

def updateBookInstanceById (s : Store) (i : ObjId) (b : BookInstance) :
    Option BookInstance × Store :=
  match s.bookinstances.find? (fun x => x.id == i) with
  | none => (none, s)
  | some old =>
    (some old,
     { s with bookinstances :=
         s.bookinstances.map (fun x => if x.id == i then { b with id := x.id } else x) })

/-- The `url` virtual of the Genre model. -/
def genreUrl (i : ObjId) : String := "/catalog/genre/" ++ i

def authorUrl (i : ObjId) : String := "/catalog/author/" ++ i

def bookUrl (i : ObjId) : String := "/catalog/book/" ++ i

def bookinstanceUrl (i : ObjId) : String := "/catalog/bookinstance/" ++ i

/-- The raw `genre` field of a book form: the first middleware of the book
create/update POST turns a missing field into `[]` and a single value into a
one-element array. -/
inductive GenreField where
  | absent
  | one (v : String)
  | many (vs : List String)
deriving Repr, DecidableEq

def normalizeGenreField : GenreField → List String
  | .absent => []
  | .one v => [v]
  | .many vs => vs

/-- The author form body; also the view-model the author form renders, since
the rejected POST paths pass the sanitized `req.body` straight back. -/
structure AuthorBody where
  first_name : String
  family_name : String
  date_of_birth : Option String
  date_of_death : Option String
deriving Repr, DecidableEq

structure BookBody where
  title : String
  author : String
  summary : String
  isbn : String
  genre : GenreField
deriving Repr, DecidableEq

structure BIBody where
  book : String
  imprint : String
  status : String
  due_back : Option String
deriving Repr, DecidableEq

/-- The author `req.body` after the sanitizers ran. -/
def sanitizeAuthorBody (b : AuthorBody) : AuthorBody :=
  { first_name := sanitizeStr b.first_name
    family_name := sanitizeStr b.family_name
    date_of_birth := normDate b.date_of_birth
    date_of_death := normDate b.date_of_death }

/-- A stored author, as the author form renders it. -/
def authorToBody (a : Author) : AuthorBody :=
  { first_name := a.first_name
    family_name := a.family_name
    date_of_birth := a.date_of_birth
    date_of_death := a.date_of_death }

/-- `new Author({...req.body})` with a given id. -/
def authorDraft (i : ObjId) (b : AuthorBody) : Author :=
  { id := i
    first_name := sanitizeStr b.first_name
    family_name := sanitizeStr b.family_name
    date_of_birth := normDate b.date_of_birth
    date_of_death := normDate b.date_of_death }

/-- `new Book({...req.body})` with a given id; `genre.*` is escaped but not
trimmed. -/
def bookDraft (i : ObjId) (b : BookBody) : Book :=
  { id := i
    title := sanitizeStr b.title
    author := sanitizeStr b.author
    summary := sanitizeStr b.summary
    isbn := sanitizeStr b.isbn
    genre := (normalizeGenreField b.genre).map escapeStr }

/-- `new BookInstance({...req.body})` with a given id; `status` is escaped
but not trimmed. -/
def biDraft (i : ObjId) (b : BIBody) : BookInstance :=
  { id := i
    book := sanitizeStr b.book
    imprint := sanitizeStr b.imprint
    status := escapeStr b.status
    due_back := normDate b.due_back }

/-- Validation errors of the genre create/update POST, in chain order. -/
def genreNameErrors (nameRaw : String) : List FieldError :=
  requiredErrors "name" "Genre name required" nameRaw

/-- Validation errors of the author create/update POST, in chain order. -/
def authorErrors (b : AuthorBody) : List FieldError :=
  authorNameErrors "first_name" "First name must be specified."
      "First name has non-alphanumeric characters." b.first_name ++
  authorNameErrors "family_name" "Family name must be specified."
      "Family name has non-alphanumeric characters." b.family_name ++
  dateErrors "date_of_birth" "Invalid date of birth" b.date_of_birth ++
  dateErrors "date_of_death" "Invalid date of death" b.date_of_death

/-- Validation errors of the book create/update POST, in chain order. -/
def bookErrors (b : BookBody) : List FieldError :=
  requiredErrors "title" "Title must not be empty." b.title ++
  requiredErrors "author" "Author must not be empty." b.author ++
  requiredErrors "summary" "Summary must not be empty." b.summary ++
  requiredErrors "isbn" "ISBN must not be empty" b.isbn

/-- Validation errors of the bookinstance create/update POST, in chain
order. -/
def biErrors (b : BIBody) : List FieldError :=
  requiredErrors "book" "Book must be specified" b.book ++
  requiredErrors "imprint" "Imprint must be specified" b.imprint ++
  dateErrors "due_back" "Invalid date" b.due_back

/-- One response call of a handler: a redirect, an error forwarded to
`next`, an exception escaping without any try/catch, or a render of one of
the views with its view-model. -/
inductive Resp where
  | redirect (url : String)
  | nextErr (status : Option Nat) (msg : String)
  | fault (msg : String)
  | renderGenreList (title : String) (genre_list : List Genre)
  | renderGenreDetail (title : String) (genre : Genre) (genre_books : List Book)
  | renderGenreForm (title : String) (genre : Option Genre)
      (errors : List FieldError)
  | renderGenreDelete (title : String) (genre : Option Genre)
      (genre_books : List Book)
  | renderAuthorList (title : String) (author_list : List Author)
  | renderAuthorDetail (title : String) (author : Author)
      (author_books : List Book)
  | renderAuthorForm (title : String) (author : Option AuthorBody)
      (errors : List FieldError)
  | renderAuthorDelete (title : String) (author : Option Author)
      (author_books : List Book)
  | renderBookList (title : String) (book_list : List (Book × Option Author))
  | renderBookDetail (title : String) (book : Book)
      (book_instances : List BookInstance)
  | renderBookForm (title : String) (authors : List Author)
      (genres : List (Genre × Bool)) (book : Option Book)
      (errors : List FieldError)
  | renderBookDelete (title : String) (book : Option Book)
      (book_bookinstances : List BookInstance)
  | renderBIList (title : String)
      (bookinstance_list : List (BookInstance × Option Book))
  | renderBIDetail (title : String) (bookinstance : BookInstance)
  | renderBIForm (title : String) (book_list : List Book)
      (selected_book : Option ObjId) (bookinstance : Option BookInstance)
      (errors : List FieldError)
  | renderBIDelete (title : String) (bookinstance : BookInstance)
deriving Repr, DecidableEq

/-- The sorted genre list of `genre_list`:
`Genre.find().sort([["name", "ascending"]])`. -/
def sortedGenres (s : Store) : List Genre :=
  s.genres.mergeSort (fun a b => strLe a.name b.name)

/-- The sorted author list of `author_list`:
`Author.find().sort([["family_name", "ascending"]])`. -/
def sortedAuthors (s : Store) : List Author :=
  s.authors.mergeSort (fun a b => strLe a.family_name b.family_name)

/-- The sorted book list of `book_list`:
`Book.find({}, "title author").sort({title: 1})`. -/
def sortedBooks (s : Store) : List Book :=
  s.books.mergeSort (fun a b => strLe a.title b.title)

/-- `genre_list` (genreController): find all, sort by name ascending,
render. -/
def genre_list (s : Store) : Store × List Resp :=
  (s, [Resp.renderGenreList "Genre List" (sortedGenres s)])

/-- `genre_detail`: 404 through `next(err)` when the id has no record. -/
def genre_detail (s : Store) (paramsId : ObjId) : Store × List Resp :=
  match findGenreById s paramsId with
  | none => (s, [Resp.nextErr (some 404) "Genre not found"])
  | some g =>
    (s, [Resp.renderGenreDetail "Genre Detail" g (findBooksByGenre s paramsId)])

/-- `genre_create_post`: validate the name; on failure re-render the form
with the draft; on success redirect to an existing genre of the same name,
or insert and redirect to the new record. -/
def genre_create_post (s : Store) (freshId : ObjId) (nameRaw : String) :
    Store × List Resp :=
  let v := sanitizeStr nameRaw
  let errors := genreNameErrors nameRaw
  let genre : Genre := { id := freshId, name := v }
  if errors.isEmpty then
    match findGenreByName s v with
    | some found => (s, [Resp.redirect (genreUrl found.id)])
    | none => (saveGenre s genre, [Resp.redirect (genreUrl freshId)])
  else
    (s, [Resp.renderGenreForm "Create Genre" (some genre) errors])

/-- `genre_delete_get`: on a missing record the redirect is issued but the
handler falls through (no `return`) and also calls render. -/
def genre_delete_get (s : Store) (paramsId : ObjId) : Store × List Resp :=
  let genre := findGenreById s paramsId
  let genre_books := findBooksByGenre s paramsId
  match genre with
  | none =>
    (s, [Resp.redirect "/catalog/genres",
         Resp.renderGenreDelete "Delete Genre" none genre_books])
  | some _ =>
    (s, [Resp.renderGenreDelete "Delete Genre" genre genre_books])

/-- `genre_delete_post`: both the dependent-book guard and the removal use
`req.body.genreid`. -/
def genre_delete_post (s : Store) (genreid : ObjId) : Store × List Resp :=
  let genre := findGenreById s genreid
  let genre_books := findBooksByGenre s genreid
  if genre_books.length > 0 then
    (s, [Resp.renderGenreDelete "Delete genre" genre genre_books])
  else
    (removeGenreById s genreid, [Resp.redirect "/catalog/genres"])

/-- `genre_update_get`: 404 through `next(err)` when the id has no
record. -/
def genre_update_get (s : Store) (paramsId : ObjId) : Store × List Resp :=
  match findGenreById s paramsId with
  | none => (s, [Resp.nextErr (some 404) "Genre not found"])
  | some g => (s, [Resp.renderGenreForm "Update Genre" (some g) []])

/-- `genre_update_post`: on validation failure the handler re-renders with
the genre re-fetched from the store (the inner `const [genre]` shadows the
draft); on a duplicate name it throws, and the catch forwards the error to
`next`; otherwise it updates and redirects.  The duplicate lookup does not
exclude the record being updated, and a missing id makes `thegenre.url`
throw inside the try. -/
def genre_update_post (s : Store) (paramsId : ObjId) (nameRaw : String) :
    Store × List Resp :=
  let v := sanitizeStr nameRaw
  let errors := genreNameErrors nameRaw
  let genre : Genre := { id := paramsId, name := v }
  if errors.isEmpty then
    match findGenreByName s v with
    | some _ => (s, [Resp.nextErr none "Genre already exists"])
    | none =>
      match updateGenreById s paramsId genre with
      | (some _, s2) => (s2, [Resp.redirect (genreUrl paramsId)])
      | (none, s2) =>
        (s2, [Resp.nextErr none "TypeError: thegenre is null"])
  else
    (s, [Resp.renderGenreForm "Update Genre" (findGenreById s paramsId) errors])

/-- `author_list` (bookController): find all, sort by family name ascending,
render. -/
def author_list (s : Store) : Store × List Resp :=
  (s, [Resp.renderAuthorList "Author List" (sortedAuthors s)])

/-- `author_detail`: 404 through `next(err)` when the id has no record. -/
def author_detail (s : Store) (paramsId : ObjId) : Store × List Resp :=
  match findAuthorById s paramsId with
  | none => (s, [Resp.nextErr (some 404) "Author not found"])
  | some a =>
    (s, [Resp.renderAuthorDetail "Author Detail" a (findBooksByAuthor s paramsId)])

/-- `author_create_post`: validate; on failure re-render with the sanitized
`req.body`; on success save and redirect to the new record. -/
def author_create_post (s : Store) (freshId : ObjId) (b : AuthorBody) :
    Store × List Resp :=
  let errors := authorErrors b
  if errors.isEmpty then
    (saveAuthor s (authorDraft freshId b), [Resp.redirect (authorUrl freshId)])
  else
    (s, [Resp.renderAuthorForm "Create Author" (some (sanitizeAuthorBody b)) errors])

/-- `author_delete_get`: on a missing record the redirect is issued but the
handler falls through (no `return`) and also calls render. -/
def author_delete_get (s : Store) (paramsId : ObjId) : Store × List Resp :=
  let author := findAuthorById s paramsId
  let author_books := findBooksByAuthor s paramsId
  match author with
  | none =>
    (s, [Resp.redirect "/catalog/authors",
         Resp.renderAuthorDelete "Delete Author" none author_books])
  | some _ =>
    (s, [Resp.renderAuthorDelete "Delete Author" author author_books])

/-- `author_delete_post`: both the dependent-book guard and the removal use
`req.body.authorid`. -/
def author_delete_post (s : Store) (authorid : ObjId) : Store × List Resp :=
  let author := findAuthorById s authorid
  let author_books := findBooksByAuthor s authorid
  if author_books.length > 0 then
    (s, [Resp.renderAuthorDelete "Delete Author" author author_books])
  else
    (removeAuthorById s authorid, [Resp.redirect "/catalog/authors"])

/-- `author_update_get`: 404 through `next(err)` when the id has no
record. -/
def author_update_get (s : Store) (paramsId : ObjId) : Store × List Resp :=
  match findAuthorById s paramsId with
  | none => (s, [Resp.nextErr (some 404) "Author not found"])
  | some a => (s, [Resp.renderAuthorForm "Update Author" (some (authorToBody a)) []])

/-- `author_update_post`: validate; on failure re-render with the sanitized
`req.body`; on success update by the path id and redirect.  There is no
try/catch here, so a missing id makes `theauthor.url` throw unhandled. -/
def author_update_post (s : Store) (paramsId : ObjId) (b : AuthorBody) :
    Store × List Resp :=
  let errors := authorErrors b
  if errors.isEmpty then
    match updateAuthorById s paramsId (authorDraft paramsId b) with
    | (some _, s2) => (s2, [Resp.redirect (authorUrl paramsId)])
    | (none, s2) => (s2, [Resp.fault "TypeError: theauthor is null"])
  else
    (s, [Resp.renderAuthorForm "Update Author" (some (sanitizeAuthorBody b)) errors])

/-- `book_list`: find all (title and author), sort by title ascending,
populate the author reference, render. -/
def book_list (s : Store) : Store × List Resp :=
  (s, [Resp.renderBookList "Book List"
        ((sortedBooks s).map (fun b => (b, findAuthorById s b.author)))])

/-- `book_detail`: 404 through `next(err)` when the id has no record. -/
def book_detail (s : Store) (paramsId : ObjId) : Store × List Resp :=
  match findBookById s paramsId with
  | none => (s, [Resp.nextErr (some 404) "Book not found"])
  | some b =>
    (s, [Resp.renderBookDetail b.title b (findBookInstancesByBook s paramsId)])

/-- `book_create_post`: normalize the genre field, validate, and on failure
re-render with the draft.  The checked marks come from
`book.genre.includes(genre._id)`, which compares freshly cast ObjectId
objects against query results by JS object identity and is therefore never
true: no genre is marked checked on this path. -/
def book_create_post (s : Store) (freshId : ObjId) (b : BookBody) :
    Store × List Resp :=
  let errors := bookErrors b
  let book := bookDraft freshId b
  if errors.isEmpty then
    (saveBook s book, [Resp.redirect (bookUrl freshId)])
  else
    (s, [Resp.renderBookForm "Create Book" s.authors
          (s.genres.map (fun g => (g, false))) (some book) errors])

/-- `book_delete_get`: on a missing record the redirect is issued but the
handler falls through (no `return`) and also calls render. -/
def book_delete_get (s : Store) (paramsId : ObjId) : Store × List Resp :=
  let book := findBookById s paramsId
  let book_bookinstances := findBookInstancesByBook s paramsId
  match book with
  | none =>
    (s, [Resp.redirect "/catalog/books",
         Resp.renderBookDelete "Delete Book" none book_bookinstances])
  | some _ =>
    (s, [Resp.renderBookDelete "Delete Book" book book_bookinstances])

/-- `book_delete_post`: the dependent-instance guard queries
`req.params.id`, but the removal targets `req.body.bookid`. -/
def book_delete_post (s : Store) (paramsId bodyBookid : ObjId) :
    Store × List Resp :=
  let book := findBookById s paramsId
  let book_bookinstances := findBookInstancesByBook s paramsId
  if book_bookinstances.length > 0 then
    (s, [Resp.renderBookDelete "Delete Book" book book_bookinstances])
  else
    (removeBookById s bodyBookid, [Resp.redirect "/catalog/books"])

/-- `book_update_get`: 404 through `next(err)` when the id has no record;
the checked marks here compare ids through `toString`, so they are by
value. -/
def book_update_get (s : Store) (paramsId : ObjId) : Store × List Resp :=
  match findBookById s paramsId with
  | none => (s, [Resp.nextErr (some 404) "Book not found"])
  | some b =>
    (s, [Resp.renderBookForm "Update Book" s.authors
          (s.genres.map (fun g => (g, b.genre.contains g.id))) (some b) []])

/-- `book_update_post`: validate; on failure re-render with the draft (the
same identity-compared checked marks as the create path, so never checked);
on success update by the path id and redirect.  No try/catch around the
final lookup, so a missing id makes `thebook.url` throw unhandled. -/
def book_update_post (s : Store) (paramsId : ObjId) (b : BookBody) :
    Store × List Resp :=
  let errors := bookErrors b
  let book := bookDraft paramsId b
  if errors.isEmpty then
    match updateBookById s paramsId book with
    | (some _, s2) => (s2, [Resp.redirect (bookUrl paramsId)])
    | (none, s2) => (s2, [Resp.fault "TypeError: thebook is null"])
  else
    (s, [Resp.renderBookForm "Update Book" s.authors
          (s.genres.map (fun g => (g, false))) (some book) errors])

/-- `bookinstance_list` (bookinstanceController): find all, populate the
book reference, render.  There is no sort here. -/
def bookinstance_list (s : Store) : Store × List Resp :=
  (s, [Resp.renderBIList "Book Instance List"
        (s.bookinstances.map (fun bi => (bi, findBookById s bi.book)))])

/-- `bookinstance_detail`: 404 when the id has no record; the title reads
`bookinstance.book.title`, so a dangling book reference throws inside the
try and is forwarded to `next`. -/
def bookinstance_detail (s : Store) (paramsId : ObjId) : Store × List Resp :=
  match findBookInstanceById s paramsId with
  | none => (s, [Resp.nextErr (some 404) "Book copy not found"])
  | some bi =>
    match findBookById s bi.book with
    | none => (s, [Resp.nextErr none "TypeError: bookinstance.book is null"])
    | some bk => (s, [Resp.renderBIDetail ("Copy: " ++ bk.title) bi])

/-- `bookinstance_create_post`: validate; on failure re-render with the
draft; on success save and redirect to the new record. -/
def bookinstance_create_post (s : Store) (freshId : ObjId) (b : BIBody) :
    Store × List Resp :=
  let errors := biErrors b
  let bi := biDraft freshId b
  if errors.isEmpty then
    (saveBookInstance s bi, [Resp.redirect (bookinstanceUrl freshId)])
  else
    (s, [Resp.renderBIForm "Create BookInstance" s.books (some bi.book)
          (some bi) errors])

/-- `bookinstance_delete_get`: unlike the other three delete-GET handlers,
a missing record throws a 404 error, forwarded to `next` — there is no
redirect to the list here. -/
def bookinstance_delete_get (s : Store) (paramsId : ObjId) :
    Store × List Resp :=
  match findBookInstanceById s paramsId with
  | none => (s, [Resp.nextErr (some 404) "Book copy not found"])
  | some bi => (s, [Resp.renderBIDelete "Delete Book-Instance" bi])

/-- `bookinstance_delete_post`: no guard of any kind; remove whatever
`req.body.bookinstanceid` names and redirect to the list. -/
def bookinstance_delete_post (s : Store) (bookinstanceid : ObjId) :
    Store × List Resp :=
  (removeBookInstanceById s bookinstanceid,
   [Resp.redirect "/catalog/bookinstances"])

/-- `bookinstance_update_get`: no null check at all — a missing record (or a
dangling book reference after populate) makes
`results.book_instance.book._id` throw inside the try, forwarded to `next`
as a plain TypeError, not a 404. -/
def bookinstance_update_get (s : Store) (paramsId : ObjId) :
    Store × List Resp :=
  match findBookInstanceById s paramsId with
  | none => (s, [Resp.nextErr none "TypeError: book_instance is null"])
  | some bi =>
    match findBookById s bi.book with
    | none => (s, [Resp.nextErr none "TypeError: book_instance.book is null"])
    | some _ =>
      (s, [Resp.renderBIForm "Update BookInstance" s.books (some bi.book)
            (some bi) []])

/-- `bookinstance_update_post`: validate; on failure re-render with the
draft; on success update by the path id and redirect (inside try, so a
missing id surfaces through `next`). -/
def bookinstance_update_post (s : Store) (paramsId : ObjId) (b : BIBody) :
    Store × List Resp :=
  let errors := biErrors b
  let bi := biDraft paramsId b
  if errors.isEmpty then
    match updateBookInstanceById s paramsId bi with
    | (some _, s2) => (s2, [Resp.redirect (bookinstanceUrl paramsId)])
    | (none, s2) => (s2, [Resp.nextErr none "TypeError: thebookinstance is null"])
  else
    (s, [Resp.renderBIForm "Update BookInstance" s.books (some bi.book)
          (some bi) errors])

/-- A render response call, of any of the views. -/
def Resp.isRender : Resp → Bool
  | .redirect _ => false
  | .nextErr _ _ => false
  | .fault _ => false
  | _ => true

/-- leNatL is total. -/
theorem leNatL_total : ∀ a b : List Nat, (leNatL a b || leNatL b a) = true := by
  intro a
  induction a with
  | nil => intro b; simp [leNatL]
  | cons x xs ih =>
    intro b
    cases b with
    | nil => simp [leNatL]
    | cons y ys =>
      by_cases h : x = y
      · subst h
        simpa [leNatL] using ih ys
      · have h2 : ¬ y = x := fun e => h e.symm
        have h3 : x < y ∨ y < x := by omega
        rcases h3 with h3 | h3 <;> simp [leNatL, h, h2, h3]

/-- leNatL is transitive. -/
theorem leNatL_trans :
    ∀ a b c : List Nat, leNatL a b = true → leNatL b c = true →
      leNatL a c = true := by
  intro a
  induction a with
  | nil => intro b c _ _; simp [leNatL]
  | cons x xs ih =>
    intro b c h1 h2
    cases b with
    | nil => simp [leNatL] at h1
    | cons y ys =>
      cases c with
      | nil => simp [leNatL] at h2
      | cons z zs =>
        by_cases hxy : x = y <;> by_cases hyz : y = z
        · subst hxy; subst hyz
          simp only [leNatL, if_pos rfl] at h1 h2 ⊢
          exact ih ys zs h1 h2
        · subst hxy
          simp only [leNatL, if_pos rfl] at h1
          simp only [leNatL, if_neg hyz] at h2 ⊢
          exact h2
        · subst hyz
          simp only [leNatL, if_neg hxy] at h1
          simp only [leNatL, if_neg hxy] at h1 ⊢
          exact h1
        · simp only [leNatL, if_neg hxy] at h1
          simp only [leNatL, if_neg hyz] at h2
          have hxz : x ≠ z := by
            simp only [decide_eq_true_eq] at h1 h2; omega
          simp only [leNatL, if_neg hxz, decide_eq_true_eq] at h1 h2 ⊢
          omega

/-- strLe is total. -/
theorem strLe_total (a b : String) : (strLe a b || strLe b a) = true :=
  leNatL_total _ _

/-- strLe is transitive. -/
theorem strLe_trans {a b c : String} (h1 : strLe a b = true)
    (h2 : strLe b c = true) : strLe a c = true :=
  leNatL_trans _ _ _ h1 h2

/-- A find-by-key misses when the key is not among the mapped keys. -/
theorem find?_none_of_key_not_mem {α : Type} (key : α → String) (i : String) :
    ∀ l : List α, i ∉ l.map key → l.find? (fun x => key x == i) = none := by
  intro l h
  rw [List.find?_eq_none]
  intro x hx
  simp only [beq_iff_eq]
  intro e
  exact h (e ▸ List.mem_map_of_mem key hx)

/-- Under the unique-id index, removing the record with a given id makes a
subsequent find-by-id miss. -/
theorem find?_eraseP_key_none {α : Type} (key : α → String) (i : String) :
    ∀ l : List α, (l.map key).Nodup →
      (l.eraseP (fun x => key x == i)).find? (fun x => key x == i) = none := by
  intro l
  induction l with
  | nil => intro _; rfl
  | cons a t ih =>
    intro hn
    rw [List.map_cons, List.nodup_cons] at hn
    by_cases hk : key a = i
    · rw [List.eraseP_cons_of_pos (by simp [hk])]
      exact find?_none_of_key_not_mem key i t (hk ▸ hn.1)
    · rw [List.eraseP_cons_of_neg (by simp [hk]),
        List.find?_cons_of_neg _ (by simp [hk])]
      exact ih hn.2

/-- eraseP leaves a list alone when nothing matches. -/
theorem eraseP_eq_of_find?_none {α : Type} (p : α → Bool) :
    ∀ l : List α, l.find? p = none → l.eraseP p = l := by
  intro l
  induction l with
  | nil => intro _; rfl
  | cons a t ih =>
    intro h
    by_cases hp : p a
    · rw [List.find?_cons_of_pos _ hp] at h; cases h
    · rw [List.find?_cons_of_neg _ hp] at h
      rw [List.eraseP_cons_of_neg hp, ih h]

/-- After a findByIdAndUpdate whose id was present, find-by-id returns the
updated genre. -/
theorem find?_genres_replace (pid : ObjId) (g : Genre) :
    ∀ l : List Genre, (l.find? (fun x => x.id == pid)).isSome = true →
      (l.map (fun x => if x.id == pid then { g with id := x.id } else x)).find?
          (fun x => x.id == pid) = some { g with id := pid } := by
  intro l
  induction l with
  | nil => intro h; cases h
  | cons a t ih =>
    intro h
    cases hc : (a.id == pid) with
    | false =>
      simp only [List.find?, hc] at h
      simp only [List.map_cons]
      simp only [List.find?, hc, Bool.false_eq_true, if_false]
      exact ih h
    | true =>
      have hk : a.id = pid := by simpa using hc
      simp only [List.map_cons, hc, if_true, hk, List.find?, beq_self_eq_true]

/-- C1: for each guarded kind (Author, Genre, Book), delete-POST with at
least one dependent record leaves the store unchanged and re-renders the
delete view with exactly the blocking records (so the record still exists),
while delete-POST with zero dependents removes the record and redirects to
the list view.  For Book the request carries the same id in the path and
the body, the shape its own delete form submits. -/
theorem c1_guarded_delete (s : Store) (hw : s.wf) (i : ObjId) :
    (findBooksByAuthor s i ≠ [] →
      author_delete_post s i =
        (s, [Resp.renderAuthorDelete "Delete Author" (findAuthorById s i)
              (findBooksByAuthor s i)])) ∧
    (findBooksByAuthor s i = [] →
      author_delete_post s i =
        (removeAuthorById s i, [Resp.redirect "/catalog/authors"]) ∧
      findAuthorById (author_delete_post s i).1 i = none) ∧
    (findBooksByGenre s i ≠ [] →
      genre_delete_post s i =
        (s, [Resp.renderGenreDelete "Delete genre" (findGenreById s i)
              (findBooksByGenre s i)])) ∧
    (findBooksByGenre s i = [] →
      genre_delete_post s i =
        (removeGenreById s i, [Resp.redirect "/catalog/genres"]) ∧
      findGenreById (genre_delete_post s i).1 i = none) ∧
    (findBookInstancesByBook s i ≠ [] →
      book_delete_post s i i =
        (s, [Resp.renderBookDelete "Delete Book" (findBookById s i)
              (findBookInstancesByBook s i)])) ∧
    (findBookInstancesByBook s i = [] →
      book_delete_post s i i =
        (removeBookById s i, [Resp.redirect "/catalog/books"]) ∧
      findBookById (book_delete_post s i i).1 i = none) := by
  refine ⟨?_, ?_, ?_, ?_, ?_, ?_⟩
  · intro h
    have hl : 0 < (findBooksByAuthor s i).length := List.length_pos.mpr h
    simp [author_delete_post, hl]
  · intro h
    have e : author_delete_post s i =
        (removeAuthorById s i, [Resp.redirect "/catalog/authors"]) := by
      simp [author_delete_post, h]
    refine ⟨e, ?_⟩
    rw [e]
    exact find?_eraseP_key_none Author.id i s.authors hw.2.1
  · intro h
    have hl : 0 < (findBooksByGenre s i).length := List.length_pos.mpr h
    simp [genre_delete_post, hl]
  · intro h
    have e : genre_delete_post s i =
        (removeGenreById s i, [Resp.redirect "/catalog/genres"]) := by
      simp [genre_delete_post, h]
    refine ⟨e, ?_⟩
    rw [e]
    exact find?_eraseP_key_none Genre.id i s.genres hw.1
  · intro h
    have hl : 0 < (findBookInstancesByBook s i).length := List.length_pos.mpr h
    simp [book_delete_post, hl]
  · intro h
    have e : book_delete_post s i i =
        (removeBookById s i, [Resp.redirect "/catalog/books"]) := by
      simp [book_delete_post, h]
    refine ⟨e, ?_⟩
    rw [e]
    exact find?_eraseP_key_none Book.id i s.books hw.2.2.1

/-- C1 witness: deleting the only author of a store with no books removes
the record and redirects to the author list. -/
theorem c1_guarded_delete_witness :
    author_delete_post ⟨[], [⟨"a1", "John", "Smith", none, none⟩], [], []⟩ "a1" =
      (removeAuthorById ⟨[], [⟨"a1", "John", "Smith", none, none⟩], [], []⟩ "a1",
       [Resp.redirect "/catalog/authors"]) ∧
    findAuthorById
      (author_delete_post ⟨[], [⟨"a1", "John", "Smith", none, none⟩], [], []⟩
        "a1").1 "a1" = none :=
  (c1_guarded_delete ⟨[], [⟨"a1", "John", "Smith", none, none⟩], [], []⟩
    (by decide) "a1").2.1 (by decide)

/-- C8: Genre create-POST with a valid name that an existing Genre already
holds redirects to the existing record and inserts nothing; with a name no
Genre holds, it appends the new record and redirects to it. -/
theorem c8_genre_create_duplicate (s : Store) (fid : ObjId) (nameRaw : String)
    (hv : jsTrim nameRaw ≠ "") :
    (∀ g, findGenreByName s (sanitizeStr nameRaw) = some g →
      genre_create_post s fid nameRaw = (s, [Resp.redirect (genreUrl g.id)])) ∧
    (findGenreByName s (sanitizeStr nameRaw) = none →
      genre_create_post s fid nameRaw =
        (saveGenre s ⟨fid, sanitizeStr nameRaw⟩,
         [Resp.redirect (genreUrl fid)])) := by
  constructor
  · intro g hg
    simp [genre_create_post, genreNameErrors, requiredErrors, hv, hg]
  · intro hg
    simp [genre_create_post, genreNameErrors, requiredErrors, hv, hg]

/-- C8 witness: with a stored Genre named Fantasy, creating Fantasy again
redirects to the stored record without inserting, and creating SciFi
inserts and redirects to the new record. -/
theorem c8_genre_create_duplicate_witness :
    genre_create_post ⟨[⟨"g1", "Fantasy"⟩], [], [], []⟩ "g9" "Fantasy" =
      (⟨[⟨"g1", "Fantasy"⟩], [], [], []⟩, [Resp.redirect (genreUrl "g1")]) ∧
    genre_create_post ⟨[⟨"g1", "Fantasy"⟩], [], [], []⟩ "g9" "SciFi" =
      (saveGenre ⟨[⟨"g1", "Fantasy"⟩], [], [], []⟩ ⟨"g9", sanitizeStr "SciFi"⟩,
       [Resp.redirect (genreUrl "g9")]) :=
  ⟨(c8_genre_create_duplicate ⟨[⟨"g1", "Fantasy"⟩], [], [], []⟩ "g9" "Fantasy"
      (by decide)).1 ⟨"g1", "Fantasy"⟩ (by decide),
   (c8_genre_create_duplicate ⟨[⟨"g1", "Fantasy"⟩], [], [], []⟩ "g9" "SciFi"
      (by decide)).2 (by decide)⟩

/-- C9: in Book delete-POST the dependent guard queries the path id while
the removal targets the body id: whenever the path id has zero
BookInstances the body id record is removed (whatever references it), and
whenever the path id has dependents nothing is removed at all. -/
theorem c9_book_delete_ids (s : Store) (paramsId bodyBookid : ObjId) :
    (findBookInstancesByBook s paramsId = [] →
      book_delete_post s paramsId bodyBookid =
        (removeBookById s bodyBookid, [Resp.redirect "/catalog/books"])) ∧
    (findBookInstancesByBook s paramsId ≠ [] →
      book_delete_post s paramsId bodyBookid =
        (s, [Resp.renderBookDelete "Delete Book" (findBookById s paramsId)
              (findBookInstancesByBook s paramsId)])) ∧
    (s.wf → findBookInstancesByBook s paramsId = [] →
      findBookById (book_delete_post s paramsId bodyBookid).1 bodyBookid =
        none) := by
  refine ⟨?_, ?_, ?_⟩
  · intro h
    simp [book_delete_post, h]
  · intro h
    have hl : 0 < (findBookInstancesByBook s paramsId).length :=
      List.length_pos.mpr h
    simp [book_delete_post, hl]
  · intro hw h
    have e : book_delete_post s paramsId bodyBookid =
        (removeBookById s bodyBookid, [Resp.redirect "/catalog/books"]) := by
      simp [book_delete_post, h]
    rw [e]
    exact find?_eraseP_key_none Book.id bodyBookid s.books hw.2.2.1

/-- C9 witness: the path id b1 has no BookInstances, so the guard passes,
and the removal deletes b2 from the body — even though a BookInstance still
references b2. -/
theorem c9_book_delete_ids_witness :
    book_delete_post
        ⟨[], [], [⟨"b1", "T1", "a1", "s", "i", []⟩, ⟨"b2", "T2", "a1", "s", "i", []⟩],
         [⟨"i2", "b2", "imp", "Available", none⟩]⟩ "b1" "b2" =
      (removeBookById
        ⟨[], [], [⟨"b1", "T1", "a1", "s", "i", []⟩, ⟨"b2", "T2", "a1", "s", "i", []⟩],
         [⟨"i2", "b2", "imp", "Available", none⟩]⟩ "b2",
       [Resp.redirect "/catalog/books"]) ∧
    findBookInstancesByBook
        ⟨[], [], [⟨"b1", "T1", "a1", "s", "i", []⟩, ⟨"b2", "T2", "a1", "s", "i", []⟩],
         [⟨"i2", "b2", "imp", "Available", none⟩]⟩ "b2" ≠ [] :=
  ⟨(c9_book_delete_ids
      ⟨[], [], [⟨"b1", "T1", "a1", "s", "i", []⟩, ⟨"b2", "T2", "a1", "s", "i", []⟩],
       [⟨"i2", "b2", "imp", "Available", none⟩]⟩ "b1" "b2").1 (by decide),
   by decide⟩

/-- C10: BookInstance delete-POST removes whatever record the body id
names and redirects to the list — no guard, no render; a missing id leaves
the store unchanged and still redirects as success. -/
theorem c10_bookinstance_delete (s : Store) (i : ObjId) :
    bookinstance_delete_post s i =
      (removeBookInstanceById s i, [Resp.redirect "/catalog/bookinstances"]) ∧
    (findBookInstanceById s i = none →
      bookinstance_delete_post s i =
        (s, [Resp.redirect "/catalog/bookinstances"])) := by
  constructor
  · rfl
  · intro h
    simp only [bookinstance_delete_post, removeBookInstanceById]
    rw [eraseP_eq_of_find?_none _ _ h]

/-- C10 witness: deleting a nonexistent BookInstance id from an empty store
is a no-op that still redirects to the list. -/
theorem c10_bookinstance_delete_witness :
    bookinstance_delete_post ⟨[], [], [], []⟩ "x" =
      (⟨[], [], [], []⟩, [Resp.redirect "/catalog/bookinstances"]) :=
  (c10_bookinstance_delete ⟨[], [], [], []⟩ "x").2 (by decide)

/-- C2 counterexample: a Genre update that keeps the record its own current
name does not replace-and-redirect as the claim states; the duplicate
lookup finds the record itself and the handler fails with the thrown
Genre-already-exists error. -/
theorem c2_counterexample :
    genre_update_post ⟨[⟨"g1", "Fantasy"⟩], [], [], []⟩ "g1" "Fantasy" ≠
      (⟨[⟨"g1", "Fantasy"⟩], [], [], []⟩, [Resp.redirect "/catalog/genre/g1"]) ∧
    genre_update_post ⟨[⟨"g1", "Fantasy"⟩], [], [], []⟩ "g1" "Fantasy" =
      (⟨[⟨"g1", "Fantasy"⟩], [], [], []⟩,
       [Resp.nextErr none "Genre already exists"]) := by
  constructor
  · decide
  · decide

/-- C2 amended: Genre update-POST with a valid name fails whenever ANY
record, the one being updated included, holds the target name; only when
no record holds it are the fields replaced (the lookup then yields the
updated record) and the response redirected to the detail view. -/
theorem c2_genre_update_duplicate (s : Store) (pid : ObjId) (nameRaw : String)
    (hv : jsTrim nameRaw ≠ "") :
    (∀ g, findGenreByName s (sanitizeStr nameRaw) = some g →
      genre_update_post s pid nameRaw =
        (s, [Resp.nextErr none "Genre already exists"])) ∧
    (findGenreByName s (sanitizeStr nameRaw) = none →
      ∀ g0, findGenreById s pid = some g0 →
        genre_update_post s pid nameRaw =
          ((updateGenreById s pid ⟨pid, sanitizeStr nameRaw⟩).2,
           [Resp.redirect (genreUrl pid)]) ∧
        findGenreById (genre_update_post s pid nameRaw).1 pid =
          some ⟨pid, sanitizeStr nameRaw⟩) := by
  constructor
  · intro g hg
    simp [genre_update_post, genreNameErrors, requiredErrors, hv, hg]
  · intro hg g0 h0
    have hsome : (s.genres.find? (fun x => x.id == pid)).isSome = true := by
      have : findGenreById s pid = some g0 := h0
      unfold findGenreById at this
      simp [this]
    have e : genre_update_post s pid nameRaw =
        ((updateGenreById s pid ⟨pid, sanitizeStr nameRaw⟩).2,
         [Resp.redirect (genreUrl pid)]) := by
      unfold findGenreById at h0
      simp [genre_update_post, genreNameErrors, requiredErrors, hv, hg,
        updateGenreById, h0]
    refine ⟨e, ?_⟩
    rw [e]
    show (updateGenreById s pid ⟨pid, sanitizeStr nameRaw⟩).2.genres.find?
        (fun x => x.id == pid) = some ⟨pid, sanitizeStr nameRaw⟩
    unfold findGenreById at h0
    simp only [updateGenreById, h0]
    exact find?_genres_replace pid ⟨pid, sanitizeStr nameRaw⟩ s.genres hsome

/-- C2 witness: with genres Fantasy and Horror stored, updating Horror to
the name Fantasy fails with the duplicate error and changes nothing, while
updating it to SciFi replaces the fields and redirects to its detail
view. -/
theorem c2_genre_update_duplicate_witness :
    genre_update_post ⟨[⟨"g1", "Fantasy"⟩, ⟨"g2", "Horror"⟩], [], [], []⟩
        "g2" "Fantasy" =
      (⟨[⟨"g1", "Fantasy"⟩, ⟨"g2", "Horror"⟩], [], [], []⟩,
       [Resp.nextErr none "Genre already exists"]) ∧
    (genre_update_post ⟨[⟨"g1", "Fantasy"⟩, ⟨"g2", "Horror"⟩], [], [], []⟩
        "g2" "SciFi" =
      ((updateGenreById ⟨[⟨"g1", "Fantasy"⟩, ⟨"g2", "Horror"⟩], [], [], []⟩
          "g2" ⟨"g2", sanitizeStr "SciFi"⟩).2,
       [Resp.redirect (genreUrl "g2")]) ∧
     findGenreById
        (genre_update_post ⟨[⟨"g1", "Fantasy"⟩, ⟨"g2", "Horror"⟩], [], [], []⟩
          "g2" "SciFi").1 "g2" = some ⟨"g2", sanitizeStr "SciFi"⟩) :=
  ⟨(c2_genre_update_duplicate ⟨[⟨"g1", "Fantasy"⟩, ⟨"g2", "Horror"⟩], [], [], []⟩
      "g2" "Fantasy" (by decide)).1 ⟨"g1", "Fantasy"⟩ (by decide),
   (c2_genre_update_duplicate ⟨[⟨"g1", "Fantasy"⟩, ⟨"g2", "Horror"⟩], [], [], []⟩
      "g2" "SciFi" (by decide)).2 (by decide) ⟨"g2", "Horror"⟩ (by decide)⟩

/-- C3 counterexample: updating Horror to the already-taken name Fantasy
performs no mutation, but nothing is rendered at all — the single response
call is the error forwarded to `next`, a terminal boundary failure, not a
field/form error on a re-rendered form. -/
theorem c3_counterexample :
    genre_update_post ⟨[⟨"g1", "Fantasy"⟩, ⟨"g2", "Horror"⟩], [], [], []⟩
        "g2" "Fantasy" =
      (⟨[⟨"g1", "Fantasy"⟩, ⟨"g2", "Horror"⟩], [], [], []⟩,
       [Resp.nextErr none "Genre already exists"]) ∧
    (genre_update_post ⟨[⟨"g1", "Fantasy"⟩, ⟨"g2", "Horror"⟩], [], [], []⟩
        "g2" "Fantasy").2.all (fun r => ! r.isRender) = true := by
  constructor
  · decide
  · decide

/-- C3 amended: when Genre update-POST hits a duplicate name, no mutation
is performed on the store, and the failure is propagated to the boundary
as a terminal `next(err)` — it is not surfaced as a field/form error on a
re-rendered form. -/
theorem c3_genre_update_duplicate_propagates (s : Store) (pid : ObjId)
    (nameRaw : String) (hv : jsTrim nameRaw ≠ "")
    (hg : ∃ g, findGenreByName s (sanitizeStr nameRaw) = some g) :
    genre_update_post s pid nameRaw =
      (s, [Resp.nextErr none "Genre already exists"]) ∧
    (genre_update_post s pid nameRaw).2.all (fun r => ! r.isRender) = true := by
  obtain ⟨g, hg⟩ := hg
  have e : genre_update_post s pid nameRaw =
      (s, [Resp.nextErr none "Genre already exists"]) := by
    simp [genre_update_post, genreNameErrors, requiredErrors, hv, hg]
  exact ⟨e, by rw [e]; rfl⟩

/-- C3 witness: the amended behavior at the concrete Fantasy/Horror
store. -/
theorem c3_genre_update_duplicate_propagates_witness :
    genre_update_post ⟨[⟨"g1", "Fantasy"⟩, ⟨"g2", "Horror"⟩], [], [], []⟩
        "g2" "Fantasy" =
      (⟨[⟨"g1", "Fantasy"⟩, ⟨"g2", "Horror"⟩], [], [], []⟩,
       [Resp.nextErr none "Genre already exists"]) ∧
    (genre_update_post ⟨[⟨"g1", "Fantasy"⟩, ⟨"g2", "Horror"⟩], [], [], []⟩
        "g2" "Fantasy").2.all (fun r => ! r.isRender) = true :=
  c3_genre_update_duplicate_propagates
    ⟨[⟨"g1", "Fantasy"⟩, ⟨"g2", "Horror"⟩], [], [], []⟩ "g2" "Fantasy"
    (by decide) ⟨⟨"g1", "Fantasy"⟩, by decide⟩

/-- C4 counterexample: a Genre update-POST rejected by validation (blank
name) re-renders the form with the record as currently stored — the name
shown is the stored Fantasy, not the (empty) sanitized value the user
submitted, so the in-progress input IS replaced by stored values on this
path. -/
theorem c4_counterexample :
    (genre_update_post ⟨[⟨"g1", "Fantasy"⟩], [], [], []⟩ "g1" " ").2 =
      [Resp.renderGenreForm "Update Genre" (some ⟨"g1", "Fantasy"⟩)
        [⟨"name", "Genre name required"⟩]] ∧
    sanitizeStr " " = "" ∧ ("Fantasy" : String) ≠ "" := by
  refine ⟨by decide, by decide, by decide⟩

/-- C4 amended: every create/update POST rejected by validation re-renders
with a draft computed from the sanitized submitted values alone — except
Genre update-POST, which re-renders the record as currently stored instead
of the submission (and whose guard rejection renders nothing at all,
see C3). -/
theorem c4_rejected_forms_echo (s : Store) (fid pid : ObjId) (ng : String)
    (ab : AuthorBody) (bb : BookBody) (ib : BIBody) :
    (genreNameErrors ng ≠ [] →
      (genre_create_post s fid ng).2 =
        [Resp.renderGenreForm "Create Genre" (some ⟨fid, sanitizeStr ng⟩)
          (genreNameErrors ng)] ∧
      (genre_update_post s pid ng).2 =
        [Resp.renderGenreForm "Update Genre" (findGenreById s pid)
          (genreNameErrors ng)]) ∧
    (authorErrors ab ≠ [] →
      (author_create_post s fid ab).2 =
        [Resp.renderAuthorForm "Create Author" (some (sanitizeAuthorBody ab))
          (authorErrors ab)] ∧
      (author_update_post s pid ab).2 =
        [Resp.renderAuthorForm "Update Author" (some (sanitizeAuthorBody ab))
          (authorErrors ab)]) ∧
    (bookErrors bb ≠ [] →
      (book_create_post s fid bb).2 =
        [Resp.renderBookForm "Create Book" s.authors
          (s.genres.map (fun g => (g, false))) (some (bookDraft fid bb))
          (bookErrors bb)] ∧
      (book_update_post s pid bb).2 =
        [Resp.renderBookForm "Update Book" s.authors
          (s.genres.map (fun g => (g, false))) (some (bookDraft pid bb))
          (bookErrors bb)]) ∧
    (biErrors ib ≠ [] →
      (bookinstance_create_post s fid ib).2 =
        [Resp.renderBIForm "Create BookInstance" s.books
          (some (biDraft fid ib).book) (some (biDraft fid ib)) (biErrors ib)] ∧
      (bookinstance_update_post s pid ib).2 =
        [Resp.renderBIForm "Update BookInstance" s.books
          (some (biDraft pid ib).book) (some (biDraft pid ib)) (biErrors ib)]) := by
  refine ⟨?_, ?_, ?_, ?_⟩
  · intro h
    constructor
    · simp [genre_create_post, h]
    · simp [genre_update_post, h]
  · intro h
    constructor
    · simp [author_create_post, h]
    · simp [author_update_post, h]
  · intro h
    constructor
    · simp [book_create_post, h]
    · simp [book_update_post, h]
  · intro h
    constructor
    · simp [bookinstance_create_post, h]
    · simp [bookinstance_update_post, h]

/-- C4 witness: an author create with a blank first name re-renders with
the sanitized submission echoed. -/
theorem c4_rejected_forms_echo_witness :
    (author_create_post ⟨[], [], [], []⟩ "a9" ⟨"", "Smith", none, none⟩).2 =
      [Resp.renderAuthorForm "Create Author"
        (some (sanitizeAuthorBody ⟨"", "Smith", none, none⟩))
        (authorErrors ⟨"", "Smith", none, none⟩)] ∧
    (author_update_post ⟨[], [], [], []⟩ "a1" ⟨"", "Smith", none, none⟩).2 =
      [Resp.renderAuthorForm "Update Author"
        (some (sanitizeAuthorBody ⟨"", "Smith", none, none⟩))
        (authorErrors ⟨"", "Smith", none, none⟩)] :=
  (c4_rejected_forms_echo ⟨[], [], [], []⟩ "a9" "a1" "x"
    ⟨"", "Smith", none, none⟩ ⟨"t", "a", "s", "i", GenreField.absent⟩
    ⟨"b", "imp", "Available", none⟩).2.1 (by decide)

/-- C5 counterexample: BookInstance delete-GET with a missing id does not
redirect to the list — it fails with a 404 forwarded to `next`. -/
theorem c5_counterexample :
    (bookinstance_delete_get ⟨[], [], [], []⟩ "x").2 =
      [Resp.nextErr (some 404) "Book copy not found"] ∧
    (bookinstance_delete_get ⟨[], [], [], []⟩ "x").2 ≠
      [Resp.redirect "/catalog/bookinstances"] := by
  refine ⟨by decide, by decide⟩

/-- C5 amended: for Author, Genre and Book, delete-GET with a missing id
commits a redirect to the list view (the handler then still attempts a
render, for lack of an early return) while update-GET and detail-GET fail
with a 404 NotFound; for BookInstance, delete-GET fails with 404 instead of
redirecting, and update-GET fails with a plain TypeError, not a 404 (its
detail-GET does 404). -/
theorem c5_missing_id (s : Store) (i : ObjId) :
    (findAuthorById s i = none →
      (author_delete_get s i).2 =
        [Resp.redirect "/catalog/authors",
         Resp.renderAuthorDelete "Delete Author" none (findBooksByAuthor s i)] ∧
      (author_update_get s i).2 = [Resp.nextErr (some 404) "Author not found"] ∧
      (author_detail s i).2 = [Resp.nextErr (some 404) "Author not found"]) ∧
    (findGenreById s i = none →
      (genre_delete_get s i).2 =
        [Resp.redirect "/catalog/genres",
         Resp.renderGenreDelete "Delete Genre" none (findBooksByGenre s i)] ∧
      (genre_update_get s i).2 = [Resp.nextErr (some 404) "Genre not found"] ∧
      (genre_detail s i).2 = [Resp.nextErr (some 404) "Genre not found"]) ∧
    (findBookById s i = none →
      (book_delete_get s i).2 =
        [Resp.redirect "/catalog/books",
         Resp.renderBookDelete "Delete Book" none
           (findBookInstancesByBook s i)] ∧
      (book_update_get s i).2 = [Resp.nextErr (some 404) "Book not found"] ∧
      (book_detail s i).2 = [Resp.nextErr (some 404) "Book not found"]) ∧
    (findBookInstanceById s i = none →
      (bookinstance_delete_get s i).2 =
        [Resp.nextErr (some 404) "Book copy not found"] ∧
      (bookinstance_update_get s i).2 =
        [Resp.nextErr none "TypeError: book_instance is null"] ∧
      (bookinstance_detail s i).2 =
        [Resp.nextErr (some 404) "Book copy not found"]) := by
  refine ⟨?_, ?_, ?_, ?_⟩
  · intro h
    refine ⟨?_, ?_, ?_⟩
    · simp [author_delete_get, h]
    · simp [author_update_get, h]
    · simp [author_detail, h]
  · intro h
    refine ⟨?_, ?_, ?_⟩
    · simp [genre_delete_get, h]
    · simp [genre_update_get, h]
    · simp [genre_detail, h]
  · intro h
    refine ⟨?_, ?_, ?_⟩
    · simp [book_delete_get, h]
    · simp [book_update_get, h]
    · simp [book_detail, h]
  · intro h
    refine ⟨?_, ?_, ?_⟩
    · simp [bookinstance_delete_get, h]
    · simp [bookinstance_update_get, h]
    · simp [bookinstance_detail, h]

/-- C5 witness: the amended behavior on the empty store, where every lookup
misses. -/
theorem c5_missing_id_witness :
    (author_delete_get ⟨[], [], [], []⟩ "x").2 =
      [Resp.redirect "/catalog/authors",
       Resp.renderAuthorDelete "Delete Author" none
         (findBooksByAuthor ⟨[], [], [], []⟩ "x")] ∧
    (author_update_get ⟨[], [], [], []⟩ "x").2 =
      [Resp.nextErr (some 404) "Author not found"] ∧
    (author_detail ⟨[], [], [], []⟩ "x").2 =
      [Resp.nextErr (some 404) "Author not found"] :=
  (c5_missing_id ⟨[], [], [], []⟩ "x").1 (by decide)

/-- Count of a required-field chains own errors. -/
theorem countP_requiredErrors_self (f m r q : String) (hq : f = q) :
    (requiredErrors f m r).countP (fun e => e.param == q) =
      if jsTrim r = "" then 1 else 0 := by
  subst hq
  by_cases ht : jsTrim r = "" <;>
    simp [requiredErrors, ht, List.countP_cons]

/-- A required-field chain contributes nothing to another fields count. -/
theorem countP_requiredErrors_ne (f m r q : String) (hq : f ≠ q) :
    (requiredErrors f m r).countP (fun e => e.param == q) = 0 := by
  by_cases ht : jsTrim r = "" <;>
    simp [requiredErrors, ht, List.countP_cons, hq]

/-- A date chain contributes nothing to another fields count. -/
theorem countP_dateErrors_ne (f m q : String) (r : Option String)
    (hq : f ≠ q) :
    (dateErrors f m r).countP (fun e => e.param == q) = 0 := by
  cases r with
  | none => rfl
  | some v =>
    by_cases h1 : v = ""
    · simp [dateErrors, h1]
    · by_cases h2 : isISO8601date v <;>
        simp [dateErrors, h1, h2, List.countP_cons, hq]

/-- A blank author-name field fails both its validators: two errors. -/
theorem countP_authorNameErrors_self_blank (f m1 m2 r q : String)
    (hq : f = q) (ht : jsTrim r = "") :
    (authorNameErrors f m1 m2 r).countP (fun e => e.param == q) = 2 := by
  subst hq
  have he : sanitizeStr r = "" := by unfold sanitizeStr; rw [ht]; decide
  have hia : isAlphanumericStr "" = false := by decide
  simp [authorNameErrors, ht, he, hia, List.countP_cons]

/-- An author-name chain contributes nothing to another fields count. -/
theorem countP_authorNameErrors_ne (f m1 m2 r q : String) (hq : f ≠ q) :
    (authorNameErrors f m1 m2 r).countP (fun e => e.param == q) = 0 := by
  by_cases ht : jsTrim r = "" <;>
    by_cases ha : isAlphanumericStr (sanitizeStr r) <;>
      simp [authorNameErrors, ht, ha, List.countP_cons, hq]

/-- C6 counterexample: an author create/update with a blank first name
yields TWO errors for that one blank required field (required and
non-alphanumeric), not exactly one. -/
theorem c6_counterexample :
    authorErrors ⟨"", "Smith", none, none⟩ =
      [⟨"first_name", "First name must be specified."⟩,
       ⟨"first_name", "First name has non-alphanumeric characters."⟩] ∧
    (authorErrors ⟨"", "Smith", none, none⟩).countP
      (fun e => e.param == "first_name") ≠ 1 := by
  refine ⟨by decide, by decide⟩

/-- C6 amended: a blank required field yields exactly one error for Genre,
Book and BookInstance; for Author each blank name field yields exactly two
(required plus non-alphanumeric).  The draft echoed on rejection carries
the other submitted values after the declared sanitization (trim/escape,
or escape alone for genre and status, date normalization). -/
theorem c6_blank_required_fields (ng : String) (ab : AuthorBody)
    (bb : BookBody) (ib : BIBody) (fid : ObjId) :
    ((genreNameErrors ng).countP (fun e => e.param == "name") =
      if jsTrim ng = "" then 1 else 0) ∧
    (jsTrim ab.first_name = "" →
      (authorErrors ab).countP (fun e => e.param == "first_name") = 2) ∧
    (jsTrim ab.family_name = "" →
      (authorErrors ab).countP (fun e => e.param == "family_name") = 2) ∧
    ((bookErrors bb).countP (fun e => e.param == "title") =
      if jsTrim bb.title = "" then 1 else 0) ∧
    ((bookErrors bb).countP (fun e => e.param == "author") =
      if jsTrim bb.author = "" then 1 else 0) ∧
    ((bookErrors bb).countP (fun e => e.param == "summary") =
      if jsTrim bb.summary = "" then 1 else 0) ∧
    ((bookErrors bb).countP (fun e => e.param == "isbn") =
      if jsTrim bb.isbn = "" then 1 else 0) ∧
    ((biErrors ib).countP (fun e => e.param == "book") =
      if jsTrim ib.book = "" then 1 else 0) ∧
    ((biErrors ib).countP (fun e => e.param == "imprint") =
      if jsTrim ib.imprint = "" then 1 else 0) ∧
    bookDraft fid bb = ⟨fid, sanitizeStr bb.title, sanitizeStr bb.author,
      sanitizeStr bb.summary, sanitizeStr bb.isbn,
      (normalizeGenreField bb.genre).map escapeStr⟩ ∧
    biDraft fid ib = ⟨fid, sanitizeStr ib.book, sanitizeStr ib.imprint,
      escapeStr ib.status, normDate ib.due_back⟩ ∧
    sanitizeAuthorBody ab = ⟨sanitizeStr ab.first_name,
      sanitizeStr ab.family_name, normDate ab.date_of_birth,
      normDate ab.date_of_death⟩ := by
  refine ⟨?_, ?_, ?_, ?_, ?_, ?_, ?_, ?_, ?_, rfl, rfl, rfl⟩
  · simp only [genreNameErrors]
    exact countP_requiredErrors_self "name" _ ng "name" rfl
  · intro ht
    simp [authorErrors, List.countP_append,
      countP_authorNameErrors_self_blank "first_name" _ _ ab.first_name
        "first_name" rfl ht,
      countP_authorNameErrors_ne "family_name" _ _ ab.family_name
        "first_name" (by decide),
      countP_dateErrors_ne "date_of_birth" _ "first_name" ab.date_of_birth
        (by decide),
      countP_dateErrors_ne "date_of_death" _ "first_name" ab.date_of_death
        (by decide)]
  · intro ht
    simp [authorErrors, List.countP_append,
      countP_authorNameErrors_self_blank "family_name" _ _ ab.family_name
        "family_name" rfl ht,
      countP_authorNameErrors_ne "first_name" _ _ ab.first_name
        "family_name" (by decide),
      countP_dateErrors_ne "date_of_birth" _ "family_name" ab.date_of_birth
        (by decide),
      countP_dateErrors_ne "date_of_death" _ "family_name" ab.date_of_death
        (by decide)]
  · simp [bookErrors, List.countP_append,
      countP_requiredErrors_self "title" _ bb.title "title" rfl,
      countP_requiredErrors_ne "author" _ bb.author "title" (by decide),
      countP_requiredErrors_ne "summary" _ bb.summary "title" (by decide),
      countP_requiredErrors_ne "isbn" _ bb.isbn "title" (by decide)]
  · simp [bookErrors, List.countP_append,
      countP_requiredErrors_self "author" _ bb.author "author" rfl,
      countP_requiredErrors_ne "title" _ bb.title "author" (by decide),
      countP_requiredErrors_ne "summary" _ bb.summary "author" (by decide),
      countP_requiredErrors_ne "isbn" _ bb.isbn "author" (by decide)]
  · simp [bookErrors, List.countP_append,
      countP_requiredErrors_self "summary" _ bb.summary "summary" rfl,
      countP_requiredErrors_ne "title" _ bb.title "summary" (by decide),
      countP_requiredErrors_ne "author" _ bb.author "summary" (by decide),
      countP_requiredErrors_ne "isbn" _ bb.isbn "summary" (by decide)]
  · simp [bookErrors, List.countP_append,
      countP_requiredErrors_self "isbn" _ bb.isbn "isbn" rfl,
      countP_requiredErrors_ne "title" _ bb.title "isbn" (by decide),
      countP_requiredErrors_ne "author" _ bb.author "isbn" (by decide),
      countP_requiredErrors_ne "summary" _ bb.summary "isbn" (by decide)]
  · simp [biErrors, List.countP_append,
      countP_requiredErrors_self "book" _ ib.book "book" rfl,
      countP_requiredErrors_ne "imprint" _ ib.imprint "book" (by decide),
      countP_dateErrors_ne "due_back" _ "book" ib.due_back (by decide)]
  · simp [biErrors, List.countP_append,
      countP_requiredErrors_self "imprint" _ ib.imprint "imprint" rfl,
      countP_requiredErrors_ne "book" _ ib.book "imprint" (by decide),
      countP_dateErrors_ne "due_back" _ "imprint" ib.due_back (by decide)]

/-- C6 witness: the counts at a concrete body with a blank first name. -/
theorem c6_blank_required_fields_witness :
    (authorErrors ⟨"", "Smith", none, none⟩).countP
      (fun e => e.param == "first_name") = 2 :=
  (c6_blank_required_fields "x" ⟨"", "Smith", none, none⟩
    ⟨"t", "a", "s", "i", GenreField.absent⟩ ⟨"b", "imp", "Available", none⟩
    "f1").2.1 (by decide)

/-- C7 counterexample: the BookInstance list view is not sorted by the
referenced book title: a store whose two instances reference books titled
B then A is rendered in store order, and B does not precede A in the
ascending order. -/
theorem c7_counterexample :
    (bookinstance_list
        ⟨[], [],
         [⟨"b1", "B", "a1", "s", "i", []⟩, ⟨"b2", "A", "a1", "s", "i", []⟩],
         [⟨"i1", "b1", "imp", "Available", none⟩,
          ⟨"i2", "b2", "imp", "Available", none⟩]⟩).2 =
      [Resp.renderBIList "Book Instance List"
        [(⟨"i1", "b1", "imp", "Available", none⟩,
          some ⟨"b1", "B", "a1", "s", "i", []⟩),
         (⟨"i2", "b2", "imp", "Available", none⟩,
          some ⟨"b2", "A", "a1", "s", "i", []⟩)]] ∧
    strLe "B" "A" = false := by
  refine ⟨by decide, by decide⟩

/-- C7 amended: the Genre, Author and Book list views are sorted ascending
by name, family name and title; the BookInstance list view returns the
collection in store order, unsorted. -/
theorem c7_sorted_lists (s : Store) :
    (genre_list s).2 = [Resp.renderGenreList "Genre List" (sortedGenres s)] ∧
    (sortedGenres s).Pairwise (fun a b => strLe a.name b.name = true) ∧
    (sortedGenres s).Perm s.genres ∧
    (author_list s).2 =
      [Resp.renderAuthorList "Author List" (sortedAuthors s)] ∧
    (sortedAuthors s).Pairwise
      (fun a b => strLe a.family_name b.family_name = true) ∧
    (sortedAuthors s).Perm s.authors ∧
    (book_list s).2 = [Resp.renderBookList "Book List"
      ((sortedBooks s).map (fun b => (b, findAuthorById s b.author)))] ∧
    (sortedBooks s).Pairwise (fun a b => strLe a.title b.title = true) ∧
    (sortedBooks s).Perm s.books ∧
    (bookinstance_list s).2 = [Resp.renderBIList "Book Instance List"
      (s.bookinstances.map (fun bi => (bi, findBookById s bi.book)))] := by
  refine ⟨rfl, ?_, ?_, rfl, ?_, ?_, rfl, ?_, ?_, rfl⟩
  · exact @List.sorted_mergeSort Genre (fun a b => strLe a.name b.name)
      (fun a b c hab hbc => strLe_trans hab hbc)
      (fun a b => strLe_total a.name b.name) s.genres
  · exact List.mergeSort_perm s.genres _
  · exact @List.sorted_mergeSort Author (fun a b => strLe a.family_name b.family_name)
      (fun a b c hab hbc => strLe_trans hab hbc)
      (fun a b => strLe_total a.family_name b.family_name) s.authors
  · exact List.mergeSort_perm s.authors _
  · exact @List.sorted_mergeSort Book (fun a b => strLe a.title b.title)
      (fun a b c hab hbc => strLe_trans hab hbc)
      (fun a b => strLe_total a.title b.title) s.books
  · exact List.mergeSort_perm s.books _
